import Mathlib

/-!
Verification of the kinematic resolver, trajectory sampler and step synthesizer
of the projectile lab (`src/labs/projectiles/utils.ts`).

The embedding uses real numbers for the JavaScript `number` type; nullable
fields become `Option ℝ`.  The resolver's self-recursion is modelled with a
fuel parameter (`solveAux`); `solveProjectileSystem` runs it with fuel 2, and a
theorem below shows any fuel of at least 2 gives the same result, so the fuel
is not a semantic restriction (the recursion depth of the source never exceeds
one recursive call).
-/

noncomputable section

namespace Projectiles

/-- Gravitational acceleration, from `src/labs/projectiles/constants.ts`. -/
def G : ℝ := 9.81

/-- Degree-to-radian conversion (`toRad` in the source). -/
def toRad (deg : ℝ) : ℝ := deg * Real.pi / 180

/-- Radian-to-degree conversion (`toDeg` in the source). -/
def toDeg (rad : ℝ) : ℝ := rad * 180 / Real.pi

/-- JavaScript `Math.atan2 y x` for real (finite) arguments. -/
def atan2 (y x : ℝ) : ℝ :=
  if 0 < x then Real.arctan (y / x)
  else if x < 0 ∧ 0 ≤ y then Real.arctan (y / x) + Real.pi
  else if x < 0 ∧ y < 0 then Real.arctan (y / x) - Real.pi
  else if x = 0 ∧ 0 < y then Real.pi / 2
  else if x = 0 ∧ y < 0 then -(Real.pi / 2)
  else 0

/-- Type `ProjectileState` from `src/labs/projectiles/types.ts`: the six physical
quantities, each present (`some`) or null (`none`). -/
structure ProjectileState where
  u : Option ℝ
  theta : Option ℝ
  y0 : Option ℝ
  range : Option ℝ
  maxHeight : Option ℝ
  flightTime : Option ℝ

/-- Type `SolvedVariables` from `src/labs/projectiles/types.ts`. -/
structure SolvedVariables where
  u : ℝ
  theta : ℝ
  y0 : ℝ
  range : ℝ
  maxHeight : ℝ
  flightTime : ℝ
  ux : ℝ
  uy : ℝ

/-- Type `TrajectoryPoint` from `src/labs/projectiles/types.ts`. -/
structure TrajectoryPoint where
  x : ℝ
  y : ℝ
  t : ℝ

/-- Fueled embedding of `solveProjectileSystem` (utils.ts lines 12-88).
Fuel 0 returns `none`; each level runs the source body once, the recursive
calls of cases B-E spending one unit of fuel.  `inputs.y0 || 0` is `getD 0`
(over the reals the only falsy value is `0`, and `0 || 0 = 0`). -/
def solveAux : ℕ → ProjectileState → Option SolvedVariables
  | 0, _ => none
  | n + 1, inputs =>
    -- CASE A: u and theta present
    match inputs.u, inputs.theta with
    | some u, some theta =>
      let thetaRad := toRad theta
      let ux := u * Real.cos thetaRad
      let uy := u * Real.sin thetaRad
      let tPeak := uy / G
      let calculatedMaxHeight := inputs.y0.getD 0 + uy * tPeak - 0.5 * G * tPeak ^ 2
      let calculatedFlightTime := (uy + Real.sqrt (uy ^ 2 + 2 * G * inputs.y0.getD 0)) / G
      let calculatedRange := ux * calculatedFlightTime
      some { u := u, theta := theta, y0 := inputs.y0.getD 0,
             range := calculatedRange, maxHeight := calculatedMaxHeight,
             flightTime := calculatedFlightTime, ux := ux, uy := uy }
    | _, _ =>
      -- CASE B: range and theta present
      match inputs.range, inputs.theta with
      | some range, some theta =>
        let sin2Theta := Real.sin (2 * toRad theta)
        if sin2Theta ≤ 0.0001 then none
        else solveAux n { inputs with
          u := some (Real.sqrt (range * G / sin2Theta)), range := none }
      | _, _ =>
        -- CASE C: maxHeight and theta present
        match inputs.maxHeight, inputs.theta with
        | some maxHeight, some theta =>
          let sinTheta := Real.sin (toRad theta)
          if |sinTheta| ≤ 0.0001 then none
          else solveAux n { inputs with
            u := some (Real.sqrt (2 * G * maxHeight / sinTheta ^ 2)), maxHeight := none }
        | _, _ =>
          -- CASE D: flightTime and theta present
          match inputs.flightTime, inputs.theta with
          | some flightTime, some theta =>
            let sinTheta := Real.sin (toRad theta)
            if |sinTheta| ≤ 0.0001 then none
            else solveAux n { inputs with
              u := some (G * flightTime / (2 * sinTheta)), flightTime := none }
          | _, _ =>
            -- CASE E: range and flightTime present
            match inputs.range, inputs.flightTime with
            | some range, some flightTime =>
              let ux := range / flightTime
              let uy := G * flightTime / 2
              let calculatedU := Real.sqrt (ux ^ 2 + uy ^ 2)
              let calculatedTheta := toDeg (atan2 uy ux)
              solveAux n { inputs with
                u := some calculatedU, theta := some calculatedTheta,
                range := none, flightTime := none }
            | _, _ => none

/-- Function `solveProjectileSystem` (utils.ts lines 12-88): the fueled body with fuel 2,
enough for the single level of recursion the source performs. -/
def solveProjectileSystem (inputs : ProjectileState) : Option SolvedVariables :=
  solveAux 2 inputs

/-- Function `generateTrajectory` (utils.ts lines 90-104).  The JavaScript guard
`!vars.flightTime || vars.flightTime <= 0` is falsiness-or-nonpositivity; over
the reals the falsy value is `0`. -/
def generateTrajectory (vars : SolvedVariables) (points : ℕ) : List TrajectoryPoint :=
  if vars.flightTime = 0 ∨ vars.flightTime ≤ 0 then []
  else
    let dt := vars.flightTime / (points : ℝ)
    (List.range (points + 1)).map fun (i : ℕ) =>
      let t := (i : ℝ) * dt
      let x := vars.ux * t
      let y := vars.y0 + vars.uy * t - 0.5 * G * t * t
      { x := x, y := if y < 0 then 0 else y, t := t }

/-- A `Step` of `generateSteps` (utils.ts lines 109-369).  A source step is a
pair of strings built from fixed templates whose only input-dependence is the
sequence of interpolated numbers; we model each string by the ordered list of
the numeric values interpolated into it (the fixed surrounding text and fixed
literals carry no information about the inputs). -/
structure Step where
  explanation : List ℝ
  latex : List ℝ

/-- The optional `extraParams` argument of `generateSteps`. -/
structure ExtraParams where
  time : Option ℝ
  distance : Option ℝ

/-- Function `generateSteps` (utils.ts lines 109-369), with each pushed step abstracted
to the ordered lists of numbers interpolated into its two strings (see `Step`).
Each branch mirrors the source's `if`/`else if` chain, the nested `match`es
playing the source's null-checks; `solved.y0 || 0` in the `heightAtTime`
branch is just `solved.y0` over the reals. -/
def generateSteps (target : String) (inputs : ProjectileState)
    (solved : SolvedVariables) (extraParams : Option ExtraParams) : List Step :=
  let theta := inputs.theta.getD solved.theta
  if target == "u" then
    match inputs.range, inputs.theta with
    | some range, some _ =>
      [⟨[], []⟩, ⟨[], []⟩,
       ⟨[range, G, theta], [range, G, 2 * theta]⟩,
       ⟨[], [solved.u]⟩]
    | _, _ =>
      match inputs.maxHeight, inputs.theta with
      | some maxHeight, some _ =>
        [⟨[], []⟩, ⟨[], []⟩, ⟨[], [G, maxHeight, theta, solved.u]⟩]
      | _, _ =>
        match inputs.flightTime, inputs.theta with
        | some flightTime, some _ =>
          [⟨[], []⟩, ⟨[], []⟩, ⟨[], [G, flightTime, theta, solved.u]⟩]
        | _, _ =>
          match inputs.range, inputs.flightTime with
          | some range, some flightTime =>
            [⟨[], []⟩,
             ⟨[], [range, flightTime, solved.ux, G, flightTime, solved.uy]⟩,
             ⟨[], []⟩,
             ⟨[], [solved.ux, solved.uy, solved.u]⟩]
          | _, _ => []
  else if target == "theta" then
    match inputs.range, inputs.flightTime with
    | some _, some _ =>
      [⟨[], [solved.ux, solved.uy]⟩, ⟨[], []⟩,
       ⟨[], [solved.uy, solved.ux, solved.theta]⟩]
    | _, _ => []
  else if target == "range" then
    [⟨[], []⟩, ⟨[solved.u, solved.theta], [solved.u, solved.theta, G]⟩,
     ⟨[], [solved.range]⟩]
  else if target == "maxHeight" then
    [⟨[], []⟩, ⟨[solved.u, solved.theta], [solved.u, solved.theta, G]⟩,
     ⟨[], [solved.maxHeight]⟩]
  else if target == "flightTime" then
    [⟨[], []⟩, ⟨[], [solved.u, solved.theta, solved.uy]⟩,
     ⟨[], [solved.uy, G]⟩, ⟨[], [solved.flightTime]⟩]
  else if target == "heightAtTime" then
    match extraParams.bind ExtraParams.time with
    | some t =>
      let uy := solved.u * Real.sin (toRad solved.theta)
      let y := solved.y0 + uy * t - 0.5 * G * t ^ 2
      [⟨[t], []⟩, ⟨[], [solved.u, solved.theta, uy]⟩,
       ⟨[], [uy, t, G, t]⟩, ⟨[], [y]⟩]
    | none => []
  else if target == "velocityAtTime" then
    match extraParams.bind ExtraParams.time with
    | some t =>
      let uy0 := solved.u * Real.sin (toRad solved.theta)
      let uyt := uy0 - G * t
      let ux := solved.u * Real.cos (toRad solved.theta)
      let v := Real.sqrt (ux * ux + uyt * uyt)
      [⟨[t], []⟩, ⟨[], [solved.u, solved.theta, ux]⟩,
       ⟨[], [solved.u, solved.theta, G, t]⟩,
       ⟨[], [uy0, G * t, uyt]⟩, ⟨[], [ux, uyt, v]⟩]
    | none => []
  else if target == "timeToMaxHeight" then
    let tPeak := solved.flightTime / 2
    [⟨[], []⟩, ⟨[], [solved.u, solved.theta, solved.uy]⟩,
     ⟨[], [solved.uy, G]⟩, ⟨[], [tPeak]⟩]
  else if target == "distanceAtTime" then
    match extraParams.bind ExtraParams.time with
    | some t =>
      let ux := solved.u * Real.cos (toRad solved.theta)
      let x := ux * t
      [⟨[t], []⟩, ⟨[], [solved.u, solved.theta, ux]⟩, ⟨[], [ux, t, x]⟩]
    | none => []
  else if target == "timeToDistance" then
    match extraParams.bind ExtraParams.distance with
    | some x =>
      let ux := solved.u * Real.cos (toRad solved.theta)
      let t := x / ux
      [⟨[x], []⟩, ⟨[], [solved.u, solved.theta, ux]⟩, ⟨[], [x, ux, t]⟩]
    | none => []
  else []

/-- The integer of hundredths displayed by the two-decimal formatting
(`n.toFixed(2)` in the source shows the number rounded to hundredths). -/
def displayedHundredths (x : ℝ) : ℤ := round (x * 100)

/-! ### A JavaScript-number model for the sampler's guard

`generateTrajectory`'s guard (utils.ts line 92) reads
`!vars.flightTime || vars.flightTime <= 0`, whose behaviour on the IEEE
special values `NaN` and `±Infinity` is invisible in the real-number model.
`JSVal` adds those values; the arithmetic operations below follow the
JavaScript semantics on them (the sign of zero is ignored, which none of the
statements proved here depend on). -/

/-- A JavaScript double: `NaN`, `±Infinity`, or a finite real. -/
inductive JSVal where
  | nan : JSVal
  | posInf : JSVal
  | negInf : JSVal
  | fin : ℝ → JSVal

namespace JSVal

/-- JavaScript truthiness of a number: `NaN` and `0` are falsy. -/
def truthy : JSVal → Bool
  | nan => false
  | posInf => true
  | negInf => true
  | fin x => decide (x ≠ 0)

/-- JavaScript `v <= 0` (false on `NaN`). -/
def leZero : JSVal → Bool
  | nan => false
  | posInf => false
  | negInf => true
  | fin x => decide (x ≤ 0)

/-- JavaScript `v < 0` (false on `NaN`). -/
def ltZero : JSVal → Bool
  | nan => false
  | posInf => false
  | negInf => true
  | fin x => decide (x < 0)

/-- JavaScript unary minus. -/
def neg : JSVal → JSVal
  | nan => nan
  | posInf => negInf
  | negInf => posInf
  | fin x => fin (-x)

/-- JavaScript addition. -/
def add : JSVal → JSVal → JSVal
  | nan, _ => nan
  | _, nan => nan
  | posInf, negInf => nan
  | negInf, posInf => nan
  | posInf, _ => posInf
  | _, posInf => posInf
  | negInf, _ => negInf
  | _, negInf => negInf
  | fin x, fin y => fin (x + y)

/-- JavaScript subtraction. -/
def sub (a b : JSVal) : JSVal := add a (neg b)

/-- JavaScript multiplication (`∞ · 0 = NaN`). -/
def mul : JSVal → JSVal → JSVal
  | nan, _ => nan
  | _, nan => nan
  | posInf, posInf => posInf
  | posInf, negInf => negInf
  | negInf, posInf => negInf
  | negInf, negInf => posInf
  | posInf, fin x => if x = 0 then nan else if 0 < x then posInf else negInf
  | fin x, posInf => if x = 0 then nan else if 0 < x then posInf else negInf
  | negInf, fin x => if x = 0 then nan else if 0 < x then negInf else posInf
  | fin x, negInf => if x = 0 then nan else if 0 < x then negInf else posInf
  | fin x, fin y => fin (x * y)

/-- JavaScript division (`∞ / ∞ = NaN`, `x / ±∞ = 0`, division of a nonzero
finite value by `0` gives a signed infinity, `0 / 0 = NaN`; the sign of zero
is ignored, a `0` divisor counting as `+0`). -/
def div : JSVal → JSVal → JSVal
  | nan, _ => nan
  | _, nan => nan
  | posInf, posInf => nan
  | posInf, negInf => nan
  | negInf, posInf => nan
  | negInf, negInf => nan
  | posInf, fin x => if 0 ≤ x then posInf else negInf
  | negInf, fin x => if 0 ≤ x then negInf else posInf
  | fin _, posInf => fin 0
  | fin _, negInf => fin 0
  | fin x, fin y =>
    if y = 0 then (if x = 0 then nan else if 0 < x then posInf else negInf)
    else fin (x / y)

end JSVal

/-- Record `SolvedVariables` with JavaScript-number fields. -/
structure SolvedVariablesJS where
  u : JSVal
  theta : JSVal
  y0 : JSVal
  range : JSVal
  maxHeight : JSVal
  flightTime : JSVal
  ux : JSVal
  uy : JSVal

/-- Record `TrajectoryPoint` with JavaScript-number fields. -/
structure TrajectoryPointJS where
  x : JSVal
  y : JSVal
  t : JSVal

/-- Function `generateTrajectory` (utils.ts lines 90-104) over JavaScript numbers: the
guard is literally `!vars.flightTime || vars.flightTime <= 0`, and the loop
body's arithmetic uses the JavaScript operations of `JSVal`. -/
def generateTrajectoryJS (vars : SolvedVariablesJS) (points : ℕ) : List TrajectoryPointJS :=
  if !vars.flightTime.truthy || vars.flightTime.leZero then []
  else
    let dt := vars.flightTime.div (.fin (points : ℝ))
    (List.range (points + 1)).map fun (i : ℕ) =>
      let t := JSVal.mul (.fin (i : ℝ)) dt
      let x := vars.ux.mul t
      let y := (vars.y0.add (vars.uy.mul t)).sub
        ((((JSVal.fin 0.5).mul (.fin G)).mul t).mul t)
      { x := x, y := if y.ltZero then .fin 0 else y, t := t }

/-! ### Helper lemmas -/

/-- The record CASE A of the resolver builds from `u`, `theta` and the
defaulted initial height (utils.ts lines 21-44). -/
def caseASolution (u θ y0 : ℝ) : SolvedVariables :=
  let ux := u * Real.cos (toRad θ)
  let uy := u * Real.sin (toRad θ)
  let tPeak := uy / G
  { u := u, theta := θ, y0 := y0,
    range := ux * ((uy + Real.sqrt (uy ^ 2 + 2 * G * y0)) / G),
    maxHeight := y0 + uy * tPeak - 0.5 * G * tPeak ^ 2,
    flightTime := (uy + Real.sqrt (uy ^ 2 + 2 * G * y0)) / G,
    ux := ux, uy := uy }

/-- With `u` and `theta` present, any positive fuel runs CASE A and stops. -/
theorem solveAux_caseA (s : ProjectileState) (u θ : ℝ)
    (hu : s.u = some u) (hθ : s.theta = some θ) :
    ∀ n : ℕ, 1 ≤ n → solveAux n s = some (caseASolution u θ (s.y0.getD 0)) := by
  intro n hn
  obtain ⟨m, rfl⟩ : ∃ m, n = m + 1 := ⟨n - 1, by omega⟩
  simp [solveAux, hu, hθ, caseASolution]

/-! ### Claims -/

/-- C8: `solveProjectileSystem` terminates on every input with recursion depth
at most one: the fueled body is insensitive to any fuel of at least 2 (each of
cases B-E recurses once into a state with `u` and `theta` present, which CASE A
settles without further recursion). -/
theorem solver_fuel_two_suffices :
    (∀ (s : ProjectileState) (n : ℕ), 2 ≤ n →
      solveAux n s = solveProjectileSystem s) ∧
    (∀ (s : ProjectileState) (u θ : ℝ), s.u = some u → s.theta = some θ →
      solveAux 1 s = solveProjectileSystem s) := by
  constructor
  · intro s n hn
    obtain ⟨m, rfl⟩ : ∃ m, n = m + 2 := ⟨n - 2, by omega⟩
    show solveAux (m + 2) s = solveAux 2 s
    rcases hu : s.u with _ | uv <;> rcases ht : s.theta with _ | tv <;>
      rcases hr : s.range with _ | rv <;> rcases hm : s.maxHeight with _ | mv <;>
        rcases hf : s.flightTime with _ | fv <;>
          simp only [solveAux, hu, ht, hr, hm, hf]
  · intro s u θ hu hθ
    rw [solveAux_caseA s u θ hu hθ 1 (le_refl 1), solveProjectileSystem,
      solveAux_caseA s u θ hu hθ 2 (by norm_num)]

/-- Witness for C8 at concrete fuels and inputs: fuel 5 agrees with the
resolver on a case-B input, and fuel 1 already suffices on a case-A input. -/
theorem solver_fuel_two_suffices_witness :
    solveAux 5 ⟨none, some 45, none, some 50, none, none⟩ =
      solveProjectileSystem ⟨none, some 45, none, some 50, none, none⟩ ∧
    solveAux 1 ⟨some 20, some 0, none, none, none, none⟩ =
      solveProjectileSystem ⟨some 20, some 0, none, none, none, none⟩ :=
  ⟨solver_fuel_two_suffices.1 ⟨none, some 45, none, some 50, none, none⟩ 5 (by norm_num),
   solver_fuel_two_suffices.2 ⟨some 20, some 0, none, none, none, none⟩ 20 0 rfl rfl⟩

/-- C1: with `u` and `theta` present (and `y0` read as `0` when absent) the
resolver always solves, and the fields satisfy `ux = u·cos θrad`,
`uy = u·sin θrad`, `maxHeight = y0 + uy·tPeak − ½·g·tPeak²` with
`tPeak = uy/g`, `flightTime = (uy + √(uy² + 2·g·y0))/g`, and
`range = ux·flightTime`, with `g = 9.81`. -/
theorem solve_u_theta_formulas (s : ProjectileState) (u θ : ℝ)
    (hu : s.u = some u) (hθ : s.theta = some θ) :
    G = 9.81 ∧
    solveProjectileSystem s = some
      { u := u, theta := θ, y0 := s.y0.getD 0,
        range := (u * Real.cos (toRad θ)) *
          ((u * Real.sin (toRad θ) +
            Real.sqrt ((u * Real.sin (toRad θ)) ^ 2 + 2 * G * s.y0.getD 0)) / G),
        maxHeight := s.y0.getD 0 +
          u * Real.sin (toRad θ) * (u * Real.sin (toRad θ) / G) -
          0.5 * G * (u * Real.sin (toRad θ) / G) ^ 2,
        flightTime := (u * Real.sin (toRad θ) +
          Real.sqrt ((u * Real.sin (toRad θ)) ^ 2 + 2 * G * s.y0.getD 0)) / G,
        ux := u * Real.cos (toRad θ), uy := u * Real.sin (toRad θ) } := by
  refine ⟨rfl, ?_⟩
  rw [solveProjectileSystem, solveAux_caseA s u θ hu hθ 2 (by norm_num)]
  simp [caseASolution]

/-- Witness for C1 at `u = 20`, `theta = 0`, all other fields absent. -/
theorem solve_u_theta_formulas_witness :
    G = 9.81 ∧
    solveProjectileSystem ⟨some 20, some 0, none, none, none, none⟩ = some
      { u := 20, theta := 0, y0 := (none : Option ℝ).getD 0,
        range := (20 * Real.cos (toRad 0)) *
          ((20 * Real.sin (toRad 0) +
            Real.sqrt ((20 * Real.sin (toRad 0)) ^ 2 +
              2 * G * (none : Option ℝ).getD 0)) / G),
        maxHeight := (none : Option ℝ).getD 0 +
          20 * Real.sin (toRad 0) * (20 * Real.sin (toRad 0) / G) -
          0.5 * G * (20 * Real.sin (toRad 0) / G) ^ 2,
        flightTime := (20 * Real.sin (toRad 0) +
          Real.sqrt ((20 * Real.sin (toRad 0)) ^ 2 +
            2 * G * (none : Option ℝ).getD 0)) / G,
        ux := 20 * Real.cos (toRad 0), uy := 20 * Real.sin (toRad 0) } :=
  solve_u_theta_formulas ⟨some 20, some 0, none, none, none, none⟩ 20 0 rfl rfl

/-- CASE A's maximum height is at least the initial height: the correction term
is `uy² / (2g) ≥ 0`. -/
theorem caseA_maxHeight_ge (y0 uy : ℝ) :
    y0 ≤ y0 + uy * (uy / G) - 0.5 * G * (uy / G) ^ 2 := by
  have hG : (0 : ℝ) < G := by norm_num [G]
  have key : uy * (uy / G) - 0.5 * G * (uy / G) ^ 2 = uy ^ 2 / (2 * G) := by
    field_simp
    ring
  have pos : (0 : ℝ) ≤ uy ^ 2 / (2 * G) := by positivity
  linarith [key, pos]

/-- Every `some` result of the fueled resolver satisfies the two SolvedState
invariants: `range = ux·flightTime` and `maxHeight ≥ y0`. -/
theorem solveAux_invariants :
    ∀ (n : ℕ) (s : ProjectileState) (out : SolvedVariables),
      solveAux n s = some out →
      out.range = out.ux * out.flightTime ∧ out.y0 ≤ out.maxHeight := by
  intro n
  induction n with
  | zero => intro s out h; simp [solveAux] at h
  | succ n ih =>
    intro s out h
    simp only [solveAux] at h
    split at h
    · -- CASE A
      rw [Option.some.injEq] at h
      subst h
      exact ⟨rfl, caseA_maxHeight_ge _ _⟩
    · split at h
      · -- CASE B
        split at h
        · simp at h
        · exact ih _ _ h
      · split at h
        · -- CASE C
          split at h
          · simp at h
          · exact ih _ _ h
        · split at h
          · -- CASE D
            split at h
            · simp at h
            · exact ih _ _ h
          · split at h
            · -- CASE E
              exact ih _ _ h
            · simp at h

/-- C4: every SolvedState the resolver returns satisfies
`range = ux·flightTime` and `maxHeight ≥ y0`. -/
theorem solved_state_invariants (s : ProjectileState) (out : SolvedVariables)
    (h : solveProjectileSystem s = some out) :
    out.range = out.ux * out.flightTime ∧ out.y0 ≤ out.maxHeight :=
  solveAux_invariants 2 s out h

/-- Witness for C4 at `u = 20`, `theta = 0`. -/
theorem solved_state_invariants_witness :
    (caseASolution 20 0 0).range =
        (caseASolution 20 0 0).ux * (caseASolution 20 0 0).flightTime ∧
      (caseASolution 20 0 0).y0 ≤ (caseASolution 20 0 0).maxHeight :=
  solved_state_invariants ⟨some 20, some 0, none, none, none, none⟩
    (caseASolution 20 0 0)
    (solveAux_caseA ⟨some 20, some 0, none, none, none, none⟩ 20 0 rfl rfl 2 (by norm_num))

/-- C3: with `u` absent and `theta`, `range` present, the resolver signals
Unsolvable exactly when `sin(2·θrad) ≤ ε` with `ε = 1e-4`; when the guard
passes, the result is the CASE A (case-1) solution for
`u = √(range·g / sin(2·θrad))`; in particular `{range: 50, theta: 0}` and
`{range: 50, theta: 90}` are both Unsolvable. -/
theorem range_theta_guard (s : ProjectileState) (θ r : ℝ)
    (hu : s.u = none) (hθ : s.theta = some θ) (hr : s.range = some r) :
    (solveProjectileSystem s = none ↔ Real.sin (2 * toRad θ) ≤ 0.0001) ∧
    (0.0001 < Real.sin (2 * toRad θ) →
      solveProjectileSystem s = some
        (caseASolution (Real.sqrt (r * G / Real.sin (2 * toRad θ))) θ (s.y0.getD 0))) ∧
    solveProjectileSystem ⟨none, some 0, none, some 50, none, none⟩ = none ∧
    solveProjectileSystem ⟨none, some 90, none, some 50, none, none⟩ = none := by
  have hred : solveProjectileSystem s =
      if Real.sin (2 * toRad θ) ≤ 0.0001 then none
      else some (caseASolution (Real.sqrt (r * G / Real.sin (2 * toRad θ))) θ (s.y0.getD 0)) := by
    simp only [solveProjectileSystem, solveAux, hu, hθ, hr]
    split
    · rfl
    · simp [caseASolution]
  refine ⟨?_, ?_, ?_, ?_⟩
  · rw [hred]
    split
    · rename_i hg
      simpa using hg
    · rename_i hg
      simpa using hg
  · intro hgt
    rw [hred, if_neg (not_le.mpr hgt)]
  · have h0 : 2 * toRad (0 : ℝ) = 0 := by rw [toRad]; ring
    norm_num [solveProjectileSystem, solveAux, h0]
  · have h90 : 2 * toRad (90 : ℝ) = Real.pi := by rw [toRad]; ring
    norm_num [solveProjectileSystem, solveAux, h90]

/-- Witness for C3 at `theta = 45`, `range = 50`. -/
theorem range_theta_guard_witness :
    (solveProjectileSystem ⟨none, some 45, none, some 50, none, none⟩ = none ↔
      Real.sin (2 * toRad 45) ≤ 0.0001) ∧
    (0.0001 < Real.sin (2 * toRad 45) →
      solveProjectileSystem ⟨none, some 45, none, some 50, none, none⟩ = some
        (caseASolution (Real.sqrt (50 * G / Real.sin (2 * toRad 45))) 45
          ((none : Option ℝ).getD 0))) ∧
    solveProjectileSystem ⟨none, some 0, none, some 50, none, none⟩ = none ∧
    solveProjectileSystem ⟨none, some 90, none, some 50, none, none⟩ = none :=
  range_theta_guard ⟨none, some 45, none, some 50, none, none⟩ 45 50 rfl rfl rfl

/-- C7: when the case-B guard passes, solving `{range, theta}` and solving
`{u: derived_u, theta}` with `derived_u = √(range·g / sin(2·θrad))` produce
identical SolvedState fields. -/
theorem range_theta_reduction_equiv (r θ : ℝ)
    (hguard : 0.0001 < Real.sin (2 * toRad θ)) :
    ∃ out : SolvedVariables,
      solveProjectileSystem ⟨none, some θ, none, some r, none, none⟩ = some out ∧
      solveProjectileSystem
        ⟨some (Real.sqrt (r * G / Real.sin (2 * toRad θ))), some θ,
          none, none, none, none⟩ = some out := by
  refine ⟨caseASolution (Real.sqrt (r * G / Real.sin (2 * toRad θ))) θ 0, ?_, ?_⟩
  · simp only [solveProjectileSystem, solveAux]
    rw [if_neg (not_le.mpr hguard)]
    simp [caseASolution]
  · exact solveAux_caseA _ _ _ rfl rfl 2 (by norm_num)

/-- Witness for C7 at `range = 50`, `theta = 45`. -/
theorem range_theta_reduction_equiv_witness :
    ∃ out : SolvedVariables,
      solveProjectileSystem ⟨none, some 45, none, some 50, none, none⟩ = some out ∧
      solveProjectileSystem
        ⟨some (Real.sqrt (50 * G / Real.sin (2 * toRad 45))), some 45,
          none, none, none, none⟩ = some out :=
  range_theta_reduction_equiv 50 45 (by
    have h45 : 2 * toRad (45 : ℝ) = Real.pi / 2 := by rw [toRad]; ring
    norm_num [h45])

/-- The sampler's ground clamp `y < 0 ? 0 : y` is `max 0 y`. -/
theorem clamp_eq_max (a : ℝ) : (if a < 0 then (0 : ℝ) else a) = max 0 a := by
  split
  · exact (max_eq_left (le_of_lt (by assumption))).symm
  · exact (max_eq_right (not_lt.mp (by assumption))).symm

/-- C5: for a solved state with positive flight time and a positive sample
count, `generateTrajectory` returns exactly `count+1` samples, the `i`-th being
`t = i·(flightTime/count)`, `x = ux·t`, `y = max 0 (y0 + uy·t − ½·g·t²)`; `t`
is strictly increasing, every `y` is nonnegative, the first sample is
`(0, y0, 0)` when `y0 ≥ 0`, and the output is empty whenever
`flightTime ≤ 0`. -/
theorem trajectory_sampling_spec (vars : SolvedVariables) (count : ℕ)
    (hft : 0 < vars.flightTime) (hc : 0 < count) :
    (generateTrajectory vars count).length = count + 1 ∧
    (∀ i : ℕ, i ≤ count →
      (generateTrajectory vars count)[i]? = some
        { x := vars.ux * ((i : ℝ) * (vars.flightTime / (count : ℝ))),
          y := max 0 (vars.y0 + vars.uy * ((i : ℝ) * (vars.flightTime / (count : ℝ))) -
            0.5 * G * ((i : ℝ) * (vars.flightTime / (count : ℝ))) *
              ((i : ℝ) * (vars.flightTime / (count : ℝ)))),
          t := (i : ℝ) * (vars.flightTime / (count : ℝ)) }) ∧
    List.Chain' (fun p q : TrajectoryPoint => p.t < q.t) (generateTrajectory vars count) ∧
    (0 ≤ vars.y0 → (generateTrajectory vars count).head? = some ⟨0, vars.y0, 0⟩) ∧
    (∀ p ∈ generateTrajectory vars count, 0 ≤ p.y) ∧
    (∀ w : SolvedVariables, w.flightTime ≤ 0 → generateTrajectory w count = []) := by
  have hguard : ¬ (vars.flightTime = 0 ∨ vars.flightTime ≤ 0) := by
    push_neg
    exact ⟨ne_of_gt hft, hft⟩
  have hcR : (0 : ℝ) < (count : ℝ) := by exact_mod_cast hc
  have hdt : 0 < vars.flightTime / (count : ℝ) := div_pos hft hcR
  have gdef : generateTrajectory vars count =
      (List.range (count + 1)).map fun (i : ℕ) =>
        let t := (i : ℝ) * (vars.flightTime / (count : ℝ))
        let x := vars.ux * t
        let y := vars.y0 + vars.uy * t - 0.5 * G * t * t
        { x := x, y := if y < 0 then 0 else y, t := t } := by
    rw [generateTrajectory, if_neg hguard]
  have hpt : ∀ i : ℕ, i ≤ count →
      (generateTrajectory vars count)[i]? = some
        { x := vars.ux * ((i : ℝ) * (vars.flightTime / (count : ℝ))),
          y := max 0 (vars.y0 + vars.uy * ((i : ℝ) * (vars.flightTime / (count : ℝ))) -
            0.5 * G * ((i : ℝ) * (vars.flightTime / (count : ℝ))) *
              ((i : ℝ) * (vars.flightTime / (count : ℝ)))),
          t := (i : ℝ) * (vars.flightTime / (count : ℝ)) } := by
    intro i hi
    rw [gdef, List.getElem?_map]
    simp only [List.getElem?_range, Nat.lt_succ_of_le hi, if_pos, Option.map_some']
    rw [clamp_eq_max]
  refine ⟨?_, hpt, ?_, ?_, ?_, ?_⟩
  · rw [gdef]
    simp
  · rw [gdef, List.chain'_map, List.chain'_range_succ]
    intro i hi
    show (i : ℝ) * (vars.flightTime / (count : ℝ)) <
      ((i + 1 : ℕ) : ℝ) * (vars.flightTime / (count : ℝ))
    have hlt : (i : ℝ) < ((i + 1 : ℕ) : ℝ) := by
      push_cast
      linarith
    exact mul_lt_mul_of_pos_right hlt hdt
  · intro hy0
    rw [List.head?_eq_getElem?, hpt 0 (Nat.zero_le count)]
    simp [max_eq_right hy0]
  · intro p hp
    rw [gdef] at hp
    simp only [List.mem_map, List.mem_range] at hp
    obtain ⟨i, -, rfl⟩ := hp
    simp only []
    split
    · exact le_refl 0
    · rename_i hy
      have := not_lt.mp hy
      linarith [this]
  · intro w hw
    rw [generateTrajectory, if_pos (Or.inr hw)]

/-- Witness for C5 at a concrete solved state with `flightTime = 1` and
`count = 1`. -/
theorem trajectory_sampling_spec_witness :
    (generateTrajectory ⟨1, 1, 0, 1, 1, 1, 2, 3⟩ 1).length = 1 + 1 ∧
    (∀ i : ℕ, i ≤ 1 →
      (generateTrajectory ⟨1, 1, 0, 1, 1, 1, 2, 3⟩ 1)[i]? = some
        { x := (⟨1, 1, 0, 1, 1, 1, 2, 3⟩ : SolvedVariables).ux *
            ((i : ℝ) * ((⟨1, 1, 0, 1, 1, 1, 2, 3⟩ : SolvedVariables).flightTime / ((1 : ℕ) : ℝ))),
          y := max 0 ((⟨1, 1, 0, 1, 1, 1, 2, 3⟩ : SolvedVariables).y0 +
            (⟨1, 1, 0, 1, 1, 1, 2, 3⟩ : SolvedVariables).uy *
              ((i : ℝ) * ((⟨1, 1, 0, 1, 1, 1, 2, 3⟩ : SolvedVariables).flightTime / ((1 : ℕ) : ℝ))) -
            0.5 * G * ((i : ℝ) * ((⟨1, 1, 0, 1, 1, 1, 2, 3⟩ : SolvedVariables).flightTime / ((1 : ℕ) : ℝ))) *
              ((i : ℝ) * ((⟨1, 1, 0, 1, 1, 1, 2, 3⟩ : SolvedVariables).flightTime / ((1 : ℕ) : ℝ)))),
          t := (i : ℝ) * ((⟨1, 1, 0, 1, 1, 1, 2, 3⟩ : SolvedVariables).flightTime / ((1 : ℕ) : ℝ)) }) ∧
    List.Chain' (fun p q : TrajectoryPoint => p.t < q.t)
      (generateTrajectory ⟨1, 1, 0, 1, 1, 1, 2, 3⟩ 1) ∧
    (0 ≤ (⟨1, 1, 0, 1, 1, 1, 2, 3⟩ : SolvedVariables).y0 →
      (generateTrajectory ⟨1, 1, 0, 1, 1, 1, 2, 3⟩ 1).head? =
        some ⟨0, (⟨1, 1, 0, 1, 1, 1, 2, 3⟩ : SolvedVariables).y0, 0⟩) ∧
    (∀ p ∈ generateTrajectory ⟨1, 1, 0, 1, 1, 1, 2, 3⟩ 1, 0 ≤ p.y) ∧
    (∀ w : SolvedVariables, w.flightTime ≤ 0 → generateTrajectory w 1 = []) :=
  trajectory_sampling_spec ⟨1, 1, 0, 1, 1, 1, 2, 3⟩ 1 (by norm_num) (by norm_num)

/-- The last element of mapping over `range (n+1)` is the image of `n`. -/
theorem map_range_getLast {α : Type} (f : ℕ → α) (n : ℕ) :
    ((List.range (n + 1)).map f).getLast? = some (f n) := by
  rw [List.range_succ, List.map_append]
  simp

/-- C6: solving `{u, theta, y0}` with `u > 0`, `0 < theta < 90`, `y0 ≥ 0` and
then sampling the trajectory (default 100 points) gives a final sample whose
`x` is the solved range and whose `y` is exactly `0` (the parabola's positive
root is the solved flight time). -/
theorem solve_sample_roundtrip (u θ y0 : ℝ)
    (hu : 0 < u) (hθ1 : 0 < θ) (hθ2 : θ < 90) (hy0 : 0 ≤ y0) :
    ∃ out : SolvedVariables,
      solveProjectileSystem ⟨some u, some θ, some y0, none, none, none⟩ = some out ∧
      (generateTrajectory out 100).getLast? = some ⟨out.range, 0, out.flightTime⟩ := by
  have hG : (0 : ℝ) < G := by norm_num [G]
  have hsin : 0 < Real.sin (toRad θ) := by
    apply Real.sin_pos_of_pos_of_lt_pi
    · rw [toRad]
      positivity
    · rw [toRad]
      nlinarith [Real.pi_pos]
  set uy := u * Real.sin (toRad θ) with huy_def
  set ux := u * Real.cos (toRad θ) with hux_def
  have huy : 0 < uy := mul_pos hu hsin
  have harg : 0 ≤ uy ^ 2 + 2 * G * y0 := by
    have h2 : 0 ≤ 2 * G * y0 := mul_nonneg (mul_nonneg (by norm_num) hG.le) hy0
    nlinarith [sq_nonneg uy]
  have hs : Real.sqrt (uy ^ 2 + 2 * G * y0) ^ 2 = uy ^ 2 + 2 * G * y0 :=
    Real.sq_sqrt harg
  set ft := (uy + Real.sqrt (uy ^ 2 + 2 * G * y0)) / G with hft_def
  have hft : 0 < ft := by
    apply div_pos _ hG
    have := Real.sqrt_nonneg (uy ^ 2 + 2 * G * y0)
    linarith
  refine ⟨caseASolution u θ y0, solveAux_caseA _ _ _ rfl rfl 2 (by norm_num), ?_⟩
  have hout_ft : (caseASolution u θ y0).flightTime = ft := rfl
  have hout_y0 : (caseASolution u θ y0).y0 = y0 := rfl
  have hout_uy : (caseASolution u θ y0).uy = uy := rfl
  have hout_ux : (caseASolution u θ y0).ux = ux := rfl
  have hout_range : (caseASolution u θ y0).range = ux * ft := rfl
  have hguard : ¬ ((caseASolution u θ y0).flightTime = 0 ∨
      (caseASolution u θ y0).flightTime ≤ 0) := by
    rw [hout_ft]
    push_neg
    exact ⟨ne_of_gt hft, hft⟩
  rw [generateTrajectory, if_neg hguard]
  simp only [hout_ft, hout_y0, hout_uy, hout_ux, hout_range, map_range_getLast]
  have h100 : ((100 : ℕ) : ℝ) * (ft / ((100 : ℕ) : ℝ)) = ft := by
    push_cast
    field_simp
  rw [h100]
  have hftG : ft * G = uy + Real.sqrt (uy ^ 2 + 2 * G * y0) := by
    rw [hft_def]
    field_simp
  have hsq : (ft * G - uy) ^ 2 = uy ^ 2 + 2 * G * y0 := by
    rw [hftG, add_sub_cancel_left]
    exact hs
  have h2G : 2 * G * (y0 + uy * ft - 0.5 * G * ft * ft) = 0 := by
    linear_combination (-1 : ℝ) * hsq
  have hyzero : y0 + uy * ft - 0.5 * G * ft * ft = 0 := by
    rcases mul_eq_zero.mp h2G with h | h
    · exfalso
      rw [G] at h
      norm_num at h
    · exact h
  rw [hyzero]
  norm_num

/-- Witness for C6 at `u = 1`, `theta = 45`, `y0 = 0`. -/
theorem solve_sample_roundtrip_witness :
    ∃ out : SolvedVariables,
      solveProjectileSystem ⟨some 1, some 45, some 0, none, none, none⟩ = some out ∧
      (generateTrajectory out 100).getLast? = some ⟨out.range, 0, out.flightTime⟩ :=
  solve_sample_roundtrip 1 45 0 (by norm_num) (by norm_num) (by norm_num) (by norm_num)

/-- C9: `generateSteps` returns the empty sequence, not an error, whenever the
target matches none of the known explanation patterns: an unrecognized key,
`theta` without the range-and-flightTime input pattern, `u` with none of its
four input patterns, or a derived-quantity key whose required extra parameter
is missing. -/
theorem steps_empty_on_unmatched_target (inputs : ProjectileState)
    (solved : SolvedVariables) (extra : Option ExtraParams) :
    (∀ target : String,
      target ∉ ["u", "theta", "range", "maxHeight", "flightTime", "heightAtTime",
        "velocityAtTime", "timeToMaxHeight", "distanceAtTime", "timeToDistance"] →
      generateSteps target inputs solved extra = []) ∧
    ((inputs.range = none ∨ inputs.flightTime = none) →
      generateSteps ("theta") inputs solved extra = []) ∧
    ((inputs.range = none ∨ inputs.theta = none) →
      (inputs.maxHeight = none ∨ inputs.theta = none) →
      (inputs.flightTime = none ∨ inputs.theta = none) →
      (inputs.range = none ∨ inputs.flightTime = none) →
      generateSteps ("u") inputs solved extra = []) ∧
    (extra.bind ExtraParams.time = none →
      generateSteps ("heightAtTime") inputs solved extra = [] ∧
      generateSteps ("velocityAtTime") inputs solved extra = [] ∧
      generateSteps ("distanceAtTime") inputs solved extra = []) ∧
    (extra.bind ExtraParams.distance = none →
      generateSteps ("timeToDistance") inputs solved extra = []) := by
  refine ⟨?_, ?_, ?_, ?_, ?_⟩
  · intro target ht
    simp only [List.mem_cons, List.not_mem_nil, or_false, not_or] at ht
    obtain ⟨h1, h2, h3, h4, h5, h6, h7, h8, h9, h10⟩ := ht
    simp [generateSteps, beq_iff_eq, h1, h2, h3, h4, h5, h6, h7, h8, h9, h10]
  · rintro (h | h)
    · rcases hf : inputs.flightTime with _ | fv <;> simp [generateSteps, h, hf]
    · rcases hr : inputs.range with _ | rv <;> simp [generateSteps, h, hr]
  · intro h1 h2 h3 h4
    rcases hr : inputs.range with _ | rv <;> rcases ht : inputs.theta with _ | tv <;>
      rcases hm : inputs.maxHeight with _ | mv <;>
        rcases hf : inputs.flightTime with _ | fv <;>
          simp_all [generateSteps]
  · intro h
    exact ⟨by simp [generateSteps, h], by simp [generateSteps, h],
      by simp [generateSteps, h]⟩
  · intro h
    simp [generateSteps, h]

/-- Witness for C9 at an unrecognized target key. -/
theorem steps_empty_on_unmatched_target_witness :
    generateSteps ("velocity") ⟨none, none, none, none, none, none⟩
      ⟨0, 0, 0, 0, 0, 0, 0, 0⟩ none = [] :=
  (steps_empty_on_unmatched_target ⟨none, none, none, none, none, none⟩
    ⟨0, 0, 0, 0, 0, 0, 0, 0⟩ none).1 "velocity" (by simp)

/-- C2 fails on the code (for states with `y0 > 0`): for the solved state of
`{u: 20, theta: 90, y0: 2050/981}`, the `timeToMaxHeight` explanation's final
displayed number is `flightTime/2 = 2050/981` (displayed 2.09) although its own
preceding steps display the substitution `t = uy/g`, and the resolver's
time-to-apex is `uy/g = 2000/981` (displayed 2.04); likewise the
`heightAtTime` explanation (at `t = 1`) displays a substituted formula without
`y0` (value 15.10) but shows a final value that includes `y0` (17.18). -/
theorem timeToMaxHeight_step_diverges :
    ∃ out : SolvedVariables,
      solveProjectileSystem ⟨some 20, some 90, some (2050 / 981), none, none, none⟩ =
        some out ∧
      (generateSteps ("timeToMaxHeight")
          ⟨some 20, some 90, some (2050 / 981), none, none, none⟩ out none).getLast? =
        some ⟨[], [out.flightTime / 2]⟩ ∧
      out.flightTime / 2 = 2050 / 981 ∧
      out.uy / G = 2000 / 981 ∧
      displayedHundredths (out.flightTime / 2) = 209 ∧
      displayedHundredths (out.uy / G) = 204 ∧
      (generateSteps ("heightAtTime")
          ⟨some 20, some 90, some (2050 / 981), none, none, none⟩ out
          (some ⟨some 1, none⟩)).getLast? =
        some ⟨[], [out.y0 + out.u * Real.sin (toRad out.theta) * 1 - 0.5 * G * 1 ^ 2]⟩ ∧
      displayedHundredths
        (out.y0 + out.u * Real.sin (toRad out.theta) * 1 - 0.5 * G * 1 ^ 2) = 1718 ∧
      displayedHundredths
        (out.u * Real.sin (toRad out.theta) * 1 - 0.5 * G * 1 ^ 2) = 1510 := by
  have hrad : toRad 90 = Real.pi / 2 := by
    rw [toRad]
    ring
  have hsin : Real.sin (toRad 90) = 1 := by
    rw [hrad, Real.sin_pi_div_two]
  have hsqrt : Real.sqrt ((20 * (1 : ℝ)) ^ 2 + 2 * G * (2050 / 981)) = 21 := by
    rw [show (20 * (1 : ℝ)) ^ 2 + 2 * G * (2050 / 981) = 21 ^ 2 by norm_num [G]]
    exact Real.sqrt_sq (by norm_num)
  have hft : (caseASolution 20 90 (2050 / 981)).flightTime = 4100 / 981 := by
    simp only [caseASolution]
    rw [hsin, hsqrt]
    norm_num [G]
  have huy : (caseASolution 20 90 (2050 / 981)).uy = 20 := by
    simp only [caseASolution]
    rw [hsin]
    norm_num
  refine ⟨caseASolution 20 90 (2050 / 981),
    solveAux_caseA _ _ _ rfl rfl 2 (by norm_num), rfl, ?_, ?_, ?_, ?_, rfl, ?_, ?_⟩
  · rw [hft]
    norm_num
  · rw [huy]
    norm_num [G]
  · rw [hft, displayedHundredths, round_eq]
    rw [show ((4100 : ℝ) / 981 / 2 * 100 + 1 / 2) = 410981 / 1962 by norm_num]
    norm_num
  · rw [huy, displayedHundredths, round_eq]
    rw [show ((20 : ℝ) / G * 100 + 1 / 2) = 400981 / 1962 by norm_num [G]]
    norm_num
  · have hval : (caseASolution 20 90 (2050 / 981)).y0 +
        (caseASolution 20 90 (2050 / 981)).u *
          Real.sin (toRad (caseASolution 20 90 (2050 / 981)).theta) * 1 -
        0.5 * G * 1 ^ 2 = 2050 / 981 + 20 - 0.5 * G := by
      simp only [caseASolution]
      rw [hsin]
      ring
    rw [hval, displayedHundredths, round_eq]
    rw [show ((2050 / 981 + 20 - 0.5 * G : ℝ) * 100 + 1 / 2) = 3372620 / 1962 by
      norm_num [G]]
    norm_num
  · have hval : (caseASolution 20 90 (2050 / 981)).u *
        Real.sin (toRad (caseASolution 20 90 (2050 / 981)).theta) * 1 -
        0.5 * G * 1 ^ 2 = 20 - 0.5 * G := by
      simp only [caseASolution]
      rw [hsin]
      ring
    rw [hval, displayedHundredths, round_eq]
    rw [show ((20 - 0.5 * G : ℝ) * 100 + 1 / 2) = 1510 by norm_num [G]]
    norm_num

/-- C10 as stated is false: a solved state whose `flightTime` is the
non-finite value `+Infinity` passes the guard
`!vars.flightTime || vars.flightTime <= 0` (`Infinity` is truthy and not
`<= 0`), so the output is NOT empty — 101 garbage samples are produced. -/
theorem trajectory_guard_counterexample :
    generateTrajectoryJS
      ⟨.fin 20, .fin 45, .fin 0, .fin 40, .fin 10, .posInf, .fin 14, .fin 14⟩
      100 ≠ [] := by
  rw [generateTrajectoryJS]
  simp [JSVal.truthy, JSVal.leZero, List.range_succ]

/-- C10 amended: `generateTrajectory` returns the empty sequence when
`flightTime` is `NaN` or (JavaScript-)`<= 0` — the falsiness test catches
`NaN` and `0` before the numeric comparison — and a non-empty output implies
`flightTime` is positive: either a positive finite real or `+Infinity`. -/
theorem trajectory_guard_amended (vars : SolvedVariablesJS) (points : ℕ) :
    ((vars.flightTime = .nan ∨ vars.flightTime.leZero = true) →
      generateTrajectoryJS vars points = []) ∧
    (generateTrajectoryJS vars points ≠ [] →
      vars.flightTime = .posInf ∨ ∃ x : ℝ, vars.flightTime = .fin x ∧ 0 < x) := by
  rcases hft : vars.flightTime with _ | _ | _ | x
  · refine ⟨fun _ => ?_, fun hne => ?_⟩
    · rw [generateTrajectoryJS, hft]
      simp [JSVal.truthy]
    · exfalso
      apply hne
      rw [generateTrajectoryJS, hft]
      simp [JSVal.truthy]
  · exact ⟨fun h => by simp [JSVal.leZero] at h, fun _ => Or.inl rfl⟩
  · refine ⟨fun _ => ?_, fun hne => ?_⟩
    · rw [generateTrajectoryJS, hft]
      simp [JSVal.truthy, JSVal.leZero]
    · exfalso
      apply hne
      rw [generateTrajectoryJS, hft]
      simp [JSVal.truthy, JSVal.leZero]
  · by_cases hx : 0 < x
    · refine ⟨fun h => ?_, fun _ => Or.inr ⟨x, rfl, hx⟩⟩
      rcases h with h | h
      · simp at h
      · rw [JSVal.leZero] at h
        simp at h
        linarith
    · refine ⟨fun _ => ?_, fun hne => ?_⟩
      · rw [generateTrajectoryJS, hft]
        rcases eq_or_lt_of_le (not_lt.mp hx) with h0 | hneg
        · simp [JSVal.truthy, JSVal.leZero, h0.symm]
        · simp [JSVal.truthy, JSVal.leZero, le_of_lt hneg]
      · exfalso
        apply hne
        rw [generateTrajectoryJS, hft]
        simp [JSVal.truthy, JSVal.leZero, not_lt.mp hx]

/-- Witness for C10's amended statement: a `NaN` flight time yields the empty
sequence. -/
theorem trajectory_guard_amended_witness :
    generateTrajectoryJS
      ⟨.fin 20, .fin 45, .fin 0, .fin 40, .fin 10, .nan, .fin 14, .fin 14⟩
      100 = [] :=
  (trajectory_guard_amended
    ⟨.fin 20, .fin 45, .fin 0, .fin 40, .fin 10, .nan, .fin 14, .fin 14⟩ 100).1
    (Or.inl rfl)

end Projectiles
